import Mathlib

/-!
Shallow embedding of `src/cplus_plugin/lib/validation/validators.py`:
a rule-based dataset validation pipeline (raster-type, CRS and no-data-value
rule validators orchestrated by a cancellable runner with aggregate progress).

Modelling conventions:
* Python floats used for progress are modelled as rationals; the no-data
  sentinel values compared by `NoDataValueValidator` are modelled as integers
  (every value the claims mention is an integer and the code only compares
  them for equality).
* A `QgsMapLayer` is modelled by `MapLayer` (its kind, its CRS authid and its
  raster data provider); `clone()` is a defensive copy, which is the identity
  in this value semantics.
* Cooperative cancellation is modelled by a schedule `cancelFrom : Option Nat`
  over a global sequence of poll points: poll point number `k` reads the flag
  as set exactly when `cancelFrom = some t` with `t ≤ k`.  `DataValidator.cancel`
  sets the task flag and the feedback flag at the same instant, so the runner's
  `self.isCanceled()` polls and the rule validators' `feedback.isCanceled()`
  polls read one shared timeline.
* Python dicts keyed by strings (CRS buckets) or by mixed string/number keys
  (no-data buckets) are modelled as insertion-ordered association lists, which
  matches the iteration order the code relies on when building detail rows.
* `_set_progress` calls inside the rule loops only publish progress through the
  feedback channel; they do not affect any value a claim is about, and the
  slots that consume them are modelled separately
  (`DataValidator_on_rule_progress_changed` / `_on_rule_validation_completed`).
-/

/-- Modelled from the spec: `RuleConfiguration` lives in `models/validation.py`,
which is not under `src/`; the spec fixes it as the immutable pair
(`rule_name`, `recommendation`). -/
structure RuleConfiguration where
  rule_name : String
  recommendation : String
deriving DecidableEq, Repr

/-- Modelled from the spec: `RuleResult` lives in `models/validation.py`, which
is not under `src/`; the spec fixes it as (configuration, recommendation copy,
summary, ordered detail rows), and `validators.py` constructs it as
`RuleResult(self._config, self._config.recommendation, summary, validate_info)`. -/
structure RuleResult where
  config : RuleConfiguration
  recommendation : String
  summary : String
  details : List (String × String)
deriving DecidableEq, Repr

/-- Modelled from the spec: the `RuleType` enumeration of `models/validation.py`
(not under `src/`), restricted to the members `validators.py` uses. -/
inductive RuleType where
  | DATA_TYPE
  | CRS
  | NO_DATA_VALUE
deriving DecidableEq, Repr

/-- Modelled from the spec: the `ModelComponentType` tag of `models/base.py`
(not under `src/`), restricted to the members `validators.py` uses. -/
inductive ModelComponentType where
  | UNKNOWN
  | NCS_PATHWAY
deriving DecidableEq, Repr

/-- Modelled from the spec: `ValidationResult` lives in `models/validation.py`
(not under `src/`); the spec fixes it as the ordered rule results plus the
component-type tag.  `DataValidator.finished` passes the raw list
`[rule_validator.result for ...]`, whose entries can be Python `None`, hence
`Option`. -/
structure ValidationResult where
  rule_results : List (Option RuleResult)
  component_type : ModelComponentType
deriving DecidableEq, Repr

/-- The kind tag distinguishing `QgsRasterLayer` from other map-layer kinds
(the code only tests `isinstance(layer, QgsRasterLayer)`). -/
inductive LayerKind where
  | raster
  | vector
deriving DecidableEq, Repr

/-- The raster data provider capability: band number `b` either declares a
no-data value (`some v`) or declares none. -/
structure RasterDataProvider where
  bands : List (Option Int)
deriving DecidableEq, Repr

/-- `provider.sourceHasNoDataValue(band)`. -/
def RasterDataProvider.sourceHasNoDataValue (p : RasterDataProvider) (band : Nat) : Bool :=
  (p.bands.getD band none).isSome

/-- `provider.sourceNoDataValue(band)` (only read by the code after
`sourceHasNoDataValue` returned true). -/
def RasterDataProvider.sourceNoDataValue (p : RasterDataProvider) (band : Nat) : Int :=
  (p.bands.getD band none).getD 0

/-- The map-layer capability the validators consume: `layer.crs()` yields
`none` for an undefined CRS and otherwise the authority-qualified identifier
`crs.authid()`; `layer.dataProvider()` is the raster provider. -/
structure MapLayer where
  kind : LayerKind
  crs : Option String
  provider : RasterDataProvider
deriving DecidableEq, Repr

/-- One dataset under validation: `model_component.name`,
`model_component.is_valid()` and `model_component.to_map_layer()` (the
validators clone the layer before inspecting it; cloning is the identity
here). -/
structure ModelComponent where
  name : String
  is_valid : Bool
  layer : MapLayer
deriving DecidableEq, Repr

/-- Modelled from the spec: `NO_DATA_VALUE` is imported from
`definitions/constants.py`, which is not under `src/`; the spec fixes the
expected sentinel at `-9999`. -/
def NO_DATA_VALUE : Int := -9999

/-- `NoDataValueValidator.BAND_NUMBER`: the default band inspected. -/
def BAND_NUMBER : Nat := 0

/-- The cancellation flag as read at poll point `poll`: the flag was set just
before poll point `t` (or never, for `none`). -/
def isCanceled (cancelFrom : Option Nat) (poll : Nat) : Bool :=
  match cancelFrom with
  | none => false
  | some t => decide (t ≤ poll)

/-- Translated message strings (`tr` is modelled as the identity on the
source language). -/
def invalid_datasets_msg : String := "Invalid datasets"

def undefined_msg : String := "Undefined"

def rasters_fail_summary : String := "There are invalid non-raster datasets"

def non_raster_label : String := "Non-raster datasets"

def rasters_pass_summary : String := "All datasets are rasters"

def crs_fail_summary : String := "Datasets have different CRS definitions"

def crs_pass_summary_base : String := "All datasets have the same CRS - "

def no_data_fail_summary_base : String := "Datasets have a NoData value different from "

def no_data_pass_summary_base : String := "Datasets have the same NoData value "

def comma_sep : String := ", "

def empty_key : String := ""

/-- Append `nm` under `key` in an insertion-ordered dict: Python
`if key in d: d[key].append(nm) else: d[key] = [nm]`. -/
def dictAppend {κ : Type} [DecidableEq κ] (d : List (κ × List String)) (key : κ)
    (nm : String) : List (κ × List String) :=
  if d.any (fun kv => decide (kv.1 = key)) then
    d.map (fun kv => if kv.1 = key then (kv.1, kv.2 ++ [nm]) else kv)
  else
    d ++ [(key, [nm])]

/-- Whether the dict holds a bucket under `key`. -/
def hasDictKey {κ : Type} [DecidableEq κ] (d : List (κ × List String)) (key : κ) : Bool :=
  d.any (fun kv => decide (kv.1 = key))

/-- The generic per-dataset loop shared by the rule validators: before each
dataset the feedback's cancellation flag is polled (`if self.feedback.isCanceled():
return False`), and on cancellation no state is produced; otherwise the rule's
per-dataset body `step` runs.  `poll` numbers the poll points globally. -/
def polledLoop {σ : Type} (step : σ → ModelComponent → σ) (cancelFrom : Option Nat) :
    List ModelComponent → Nat → σ → Option σ × Nat
  | [], poll, s => (some s, poll)
  | c :: rest, poll, s =>
    if isCanceled cancelFrom poll then (none, poll + 1)
    else polledLoop step cancelFrom rest (poll + 1) (step s c)

/-- Outcome of one rule validator invocation. -/
inductive VOutcome where
  /-- `BaseRuleValidator.run` returned False before validating (fewer than two
  components); no result is set. -/
  | precondFailed
  /-- `validate` returned False at a cancellation poll; no result is set. -/
  | cancelled
  /-- `validate` ran to the end: its boolean status plus the `RuleResult` it
  stored in `self._result`. -/
  | finishedRule (status : Bool) (res : RuleResult)
  /-- `validate` raised an exception. -/
  | raised
deriving DecidableEq, Repr

/-- Per-dataset body of `RasterValidator._validate`: an invalid component
flips the status and is recorded under the non-raster names; a valid component
whose (cloned) layer is not a `QgsRasterLayer` is recorded but — exactly as the
code does — the status is left unchanged. -/
def rasterStep (sn : Bool × List String) (c : ModelComponent) : Bool × List String :=
  if c.is_valid = false then (false, sn.2 ++ [c.name])
  else if c.layer.kind ≠ LayerKind.raster then (sn.1, sn.2 ++ [c.name])
  else sn

/-- `RasterValidator._validate`. -/
def RasterValidator_validate (cfg : RuleConfiguration) (comps : List ModelComponent)
    (cancelFrom : Option Nat) (poll : Nat) : VOutcome × Nat :=
  match polledLoop rasterStep cancelFrom comps poll (true, []) with
  | (none, p) => (VOutcome.cancelled, p)
  | (some (status, names), p) =>
    let summary := if status = false then rasters_fail_summary else rasters_pass_summary
    let details : List (String × String) :=
      if status = false then [(non_raster_label, String.intercalate comma_sep names)]
      else []
    (VOutcome.finishedRule status ⟨cfg, cfg.recommendation, summary, details⟩, p)

/-- Per-dataset body of `CrsValidator._validate`: invalid components go to the
"Invalid datasets" bucket and flip the status, an undefined CRS goes to the
"Undefined" bucket and flips the status, and otherwise the component is
bucketed under its authid.  (The source also keeps a `has_undefined` flag that
is written and never read; it is omitted.) -/
def crsStep (sd : Bool × List (String × List String)) (c : ModelComponent) :
    Bool × List (String × List String) :=
  if c.is_valid = false then (false, dictAppend sd.2 invalid_datasets_msg c.name)
  else
    match c.layer.crs with
    | none => (false, dictAppend sd.2 undefined_msg c.name)
    | some crs_id => (sd.1, dictAppend sd.2 crs_id c.name)

/-- `CrsValidator._validate`. -/
def CrsValidator_validate (cfg : RuleConfiguration) (comps : List ModelComponent)
    (cancelFrom : Option Nat) (poll : Nat) : VOutcome × Nat :=
  match polledLoop crsStep cancelFrom comps poll (true, []) with
  | (none, p) => (VOutcome.cancelled, p)
  | (some (status0, defs), p) =>
    let status := if 1 < defs.length ∧ status0 = true then false else status0
    let summary :=
      if status = false then crs_fail_summary
      else crs_pass_summary_base ++ (defs.map Prod.fst).headD empty_key
    let details : List (String × String) :=
      if status = false then
        defs.map (fun kv => (kv.1, String.intercalate comma_sep kv.2))
      else []
    (VOutcome.finishedRule status ⟨cfg, cfg.recommendation, summary, details⟩, p)

/-- Keys of the no-data dict: the Python dict mixes the translated string
"Invalid datasets" with numeric no-data values, which can never collide. -/
inductive NdKey where
  | invalid
  | val (v : Int)
deriving DecidableEq, Repr

/-- How a no-data dict key is rendered into a detail row (`str(no_data)`). -/
def ndKeyDisplay : NdKey → String
  | NdKey.invalid => invalid_datasets_msg
  | NdKey.val v => toString v

/-- Per-dataset body of `NoDataValueValidator._validate` with expected
sentinel `expected`: invalid components flip the status and join the invalid
bucket; valid non-raster components are skipped; components whose band
`BAND_NUMBER` declares no no-data value are skipped; a declared value equal to
the sentinel adds nothing, and any other value is bucketed under the value
itself. -/
def noDataStep (expected : Int) (sd : Bool × List (NdKey × List String))
    (c : ModelComponent) : Bool × List (NdKey × List String) :=
  if c.is_valid = false then (false, dictAppend sd.2 NdKey.invalid c.name)
  else if c.layer.kind ≠ LayerKind.raster then sd
  else if c.layer.provider.sourceHasNoDataValue BAND_NUMBER = false then sd
  else
    let v := c.layer.provider.sourceNoDataValue BAND_NUMBER
    if v ≠ expected then (sd.1, dictAppend sd.2 (NdKey.val v) c.name)
    else sd

/-- `NoDataValueValidator._validate`; the source reads the module constant
`NO_DATA_VALUE` where this model takes `expected` (see `NO_DATA_VALUE`). -/
def NoDataValueValidator_validate (expected : Int) (cfg : RuleConfiguration)
    (comps : List ModelComponent) (cancelFrom : Option Nat) (poll : Nat) :
    VOutcome × Nat :=
  match polledLoop (noDataStep expected) cancelFrom comps poll (true, []) with
  | (none, p) => (VOutcome.cancelled, p)
  | (some (status0, defs), p) =>
    let status := if 1 < defs.length ∧ status0 = true then false else status0
    let summary :=
      if status = false then no_data_fail_summary_base ++ toString expected
      else no_data_pass_summary_base ++ toString expected
    let details : List (String × String) :=
      if status = false then
        defs.map (fun kv => (ndKeyDisplay kv.1, String.intercalate comma_sep kv.2))
      else []
    (VOutcome.finishedRule status ⟨cfg, cfg.recommendation, summary, details⟩, p)

/-- A rule validator as the runner sees it: its rule type and its `_validate`
entry point (taking the shared components, the cancellation schedule and the
current poll index). -/
structure RuleValidatorM where
  ruleType : RuleType
  validate : List ModelComponent → Option Nat → Nat → VOutcome × Nat

/-- `BaseRuleValidator.run`: fewer than two components is a precondition
failure (logged, False returned, no result set); otherwise the rule-specific
`_validate` runs. -/
def BaseRuleValidator_run (v : RuleValidatorM) (comps : List ModelComponent)
    (cancelFrom : Option Nat) (poll : Nat) : VOutcome × Nat :=
  if comps.length < 2 then (VOutcome.precondFailed, poll)
  else v.validate comps cancelFrom poll

/-- The concrete `RasterValidator` as a runner entry. -/
def rasterRuleValidator (cfg : RuleConfiguration) : RuleValidatorM :=
  ⟨RuleType.DATA_TYPE, fun comps cf p => RasterValidator_validate cfg comps cf p⟩

/-- The concrete `CrsValidator` as a runner entry. -/
def crsRuleValidator (cfg : RuleConfiguration) : RuleValidatorM :=
  ⟨RuleType.CRS, fun comps cf p => CrsValidator_validate cfg comps cf p⟩

/-- The concrete `NoDataValueValidator` as a runner entry (bound to the module
constant `NO_DATA_VALUE`, as in the source). -/
def noDataRuleValidator (cfg : RuleConfiguration) : RuleValidatorM :=
  ⟨RuleType.NO_DATA_VALUE, fun comps cf p =>
    NoDataValueValidator_validate NO_DATA_VALUE cfg comps cf p⟩

/-- A rule validator whose `validate` raises: the subject of the exception
containment claim (`DataValidator.run` must catch it). -/
def raisingRuleValidator : RuleValidatorM :=
  ⟨RuleType.DATA_TYPE, fun _ _ p => (VOutcome.raised, p)⟩

/-- Outcome of `DataValidator._validate`: either it returned its boolean
status, or a rule validator's exception propagated out of it.  `results` lists,
in registration order, the `result` attribute of every registered rule
validator when `_validate` ends (Python `None` for a validator that set
none). -/
inductive RunnerOutcome where
  | ok (status : Bool) (results : List (Option RuleResult)) (poll : Nat)
  | raised (results : List (Option RuleResult)) (poll : Nat)
deriving DecidableEq, Repr

def RunnerOutcome.isRaised : RunnerOutcome → Bool
  | RunnerOutcome.raised _ _ => true
  | _ => false

/-- Prepend the current validator's `result` attribute to the outcome of the
remaining iterations. -/
def consResult (r : Option RuleResult) : RunnerOutcome → RunnerOutcome
  | RunnerOutcome.ok status rs p => RunnerOutcome.ok status (r :: rs) p
  | RunnerOutcome.raised rs p => RunnerOutcome.raised (r :: rs) p

/-- `DataValidator._validate`: iterate the registered rule validators in
order; before each, poll the task-level cancellation flag — if set, status
becomes False and the loop breaks (the remaining validators keep result
`None`).  Each validator is run through `BaseRuleValidator.run`; its boolean
return value is discarded, only its `result` attribute is collected.  An
exception from a validator propagates. -/
def DataValidator_validate (comps : List ModelComponent) (cancelFrom : Option Nat) :
    List RuleValidatorM → Nat → RunnerOutcome
  | [], poll => RunnerOutcome.ok true [] poll
  | v :: rest, poll =>
    if isCanceled cancelFrom poll then
      RunnerOutcome.ok false ((v :: rest).map (fun _ => none)) (poll + 1)
    else
      match BaseRuleValidator_run v comps cancelFrom (poll + 1) with
      | (VOutcome.raised, p) =>
        RunnerOutcome.raised ((v :: rest).map (fun _ => none)) p
      | (VOutcome.finishedRule _ r, p) =>
        consResult (some r) (DataValidator_validate comps cancelFrom rest p)
      | (VOutcome.precondFailed, p) =>
        consResult none (DataValidator_validate comps cancelFrom rest p)
      | (VOutcome.cancelled, p) =>
        consResult none (DataValidator_validate comps cancelFrom rest p)

/-- A Python-level exception escaping `DataValidator.run`. -/
inductive PyError where
  | typeError
deriving DecidableEq, Repr

/-- The value bound to `self.model_components`: normally a list, but
`NcsDataValidator.__init__` can bind the built-in `list` type object itself
(`kwargs.pop("ncs_pathways", list)`). -/
inductive PyComponentsVal where
  | listV (comps : List ModelComponent)
  | typeObj
deriving DecidableEq, Repr

def PyComponentsVal.isListVal : PyComponentsVal → Bool
  | PyComponentsVal.listV _ => true
  | PyComponentsVal.typeObj => false

/-- `DataValidator.run`: no registered validators or fewer than two components
is a precondition failure returning False; `len(self.model_components)` on the
`list` type object raises `TypeError`, and this check sits outside the
`try` block; otherwise `_validate` runs inside `try`, with any exception
converted into a False return. -/
def DataValidator_run (vs : List RuleValidatorM) (mcs : PyComponentsVal)
    (cancelFrom : Option Nat) : Except PyError (Bool × List (Option RuleResult)) :=
  if vs.length = 0 then Except.ok (false, vs.map (fun _ => none))
  else
    match mcs with
    | PyComponentsVal.typeObj => Except.error PyError.typeError
    | PyComponentsVal.listV comps =>
      if comps.length < 2 then Except.ok (false, vs.map (fun _ => none))
      else
        match DataValidator_validate comps cancelFrom vs 0 with
        | RunnerOutcome.ok status rs _ => Except.ok (status, rs)
        | RunnerOutcome.raised rs _ => Except.ok (false, rs)

/-- The observable effect of `DataValidator.finished`: the stored
`ValidationResult` (initially `None`) and whether `validation_completed` was
emitted. -/
structure TaskFinishState where
  result : Option ValidationResult
  completionEmitted : Bool
deriving DecidableEq, Repr

/-- `DataValidator.finished(result)`: only when `result` is True does the
runner assemble `ValidationResult([rule_validator.result for ...], MODEL_COMPONENT_TYPE)`
and emit `validation_completed`; otherwise the stored result stays `None` and
nothing is emitted. -/
def DataValidator_finished (runStatus : Bool) (ruleResults : List (Option RuleResult))
    (tag : ModelComponentType) : TaskFinishState :=
  if runStatus = true then ⟨some ⟨ruleResults, tag⟩, true⟩
  else ⟨none, false⟩

/-- `DataValidator.create_rule_validator` over the static registry
`rule_validators()` (DATA_TYPE ↦ RasterValidator, CRS ↦ CrsValidator,
NO_DATA_VALUE ↦ NoDataValueValidator). -/
def DataValidator_create_rule_validator (rt : RuleType) (cfg : RuleConfiguration) :
    RuleValidatorM :=
  match rt with
  | RuleType.DATA_TYPE => rasterRuleValidator cfg
  | RuleType.CRS => crsRuleValidator cfg
  | RuleType.NO_DATA_VALUE => noDataRuleValidator cfg

/-- Modelled from the spec: the static rule configurations come from
`configs.py`, which is not under `src/`.  The concrete strings do not affect
any claim. -/
def raster_validation_config : RuleConfiguration :=
  ⟨"Raster datasets", "Ensure all datasets are raster layers"⟩

/-- Modelled from the spec: see `raster_validation_config`. -/
def crs_validation_config : RuleConfiguration :=
  ⟨"Same coordinate reference system", "Ensure all datasets share one CRS"⟩

/-- Modelled from the spec: see `raster_validation_config`. -/
def no_data_validation_config : RuleConfiguration :=
  ⟨"Same NoData value", "Ensure all datasets share the expected NoData value"⟩

/-- `NcsDataValidator._initialize_rule_validators`: the fixed registration
order data-type, CRS, no-data. -/
def NcsDataValidator_rule_validators : List RuleValidatorM :=
  [DataValidator_create_rule_validator RuleType.DATA_TYPE raster_validation_config,
   DataValidator_create_rule_validator RuleType.CRS crs_validation_config,
   DataValidator_create_rule_validator RuleType.NO_DATA_VALUE no_data_validation_config]

/-- `NcsDataValidator.__init__`: `self.model_components = kwargs.pop("ncs_pathways", list)`
binds the built-in `list` type object when the keyword argument is absent. -/
def NcsDataValidator_model_components (ncs_pathways : Option (List ModelComponent)) :
    PyComponentsVal :=
  match ncs_pathways with
  | some comps => PyComponentsVal.listV comps
  | none => PyComponentsVal.typeObj

/-! ### Progress aggregation (`_on_rule_progress_changed`, `_on_rule_validation_completed`) -/

/-- The runner state driving aggregate progress: `self._rule_reference_progress`
(the accumulated share of completed rules) and the last value passed to
`setProgress` (published both to the feedback object and to the task). -/
structure RunnerProgressState where
  rule_reference_progress : ℚ
  overall_progress : ℚ
deriving DecidableEq, Repr

/-- `__init__`: `self._rule_reference_progress = 0`, task progress starts at 0. -/
def initialProgressState : RunnerProgressState := ⟨0, 0⟩

/-- `DataValidator._on_rule_progress_changed`: with no registered validators it
returns early; otherwise overall progress becomes the accumulated reference
progress plus the rule's reported progress divided by the number of
validators. -/
def DataValidator_on_rule_progress_changed (nRules : Nat) (s : RunnerProgressState)
    (rule_progress : ℚ) : RunnerProgressState :=
  if nRules = 0 then s
  else { s with overall_progress := s.rule_reference_progress + rule_progress / nRules }

/-- `DataValidator._on_rule_validation_completed`:
`self._rule_reference_progress += 100 / len(self._rule_validators)`.  (The
source has no zero guard here; the slot only fires while a rule validator is
executing, which requires at least one registered validator.) -/
def DataValidator_on_rule_validation_completed (nRules : Nat) (s : RunnerProgressState) :
    RunnerProgressState :=
  { s with rule_reference_progress := s.rule_reference_progress + 100 / nRules }

/-- The two event channels of `ValidationFeedback` the slots are connected to.
Modelled from the spec: `feedback.py` is not under `src/`; the spec fixes the
channels as "rule progress changed (rule_type, progress)" and "rule validation
completed (rule_type)" (the slots ignore the rule type). -/
inductive FeedbackEvent where
  | progressChanged (rule_progress : ℚ)
  | completed

/-- Dispatch one feedback event to the connected slot. -/
def applyFeedbackEvent (nRules : Nat) (s : RunnerProgressState) :
    FeedbackEvent → RunnerProgressState
  | FeedbackEvent.progressChanged p => DataValidator_on_rule_progress_changed nRules s p
  | FeedbackEvent.completed => DataValidator_on_rule_validation_completed nRules s

/-- Fold an event trace through the two slots. -/
def processFeedbackEvents (nRules : Nat) (s : RunnerProgressState)
    (events : List FeedbackEvent) : RunnerProgressState :=
  events.foldl (applyFeedbackEvent nRules) s

/-- How many completion events a trace holds. -/
def countCompleted (events : List FeedbackEvent) : Nat :=
  events.countP (fun e => match e with
    | FeedbackEvent.completed => true
    | FeedbackEvent.progressChanged _ => false)

/-! ### Fixtures used by the concrete theorems -/

def epsg_4326 : String := "EPSG:4326"

def epsg_3857 : String := "EPSG:3857"

/-- A valid raster layer with a declared band-0 no-data value. -/
def rasterLayerWith (crs_id : String) (nd : Option Int) : MapLayer :=
  ⟨LayerKind.raster, some crs_id, ⟨[nd]⟩⟩

/-- A (valid) vector layer. -/
def vectorLayer : MapLayer := ⟨LayerKind.vector, some epsg_4326, ⟨[]⟩⟩

/-- Two valid components backed by non-raster layers. -/
def vectorComps : List ModelComponent :=
  [⟨"a", true, vectorLayer⟩, ⟨"b", true, vectorLayer⟩]

/-- Two valid raster components (for the cancellation scenario). -/
def cancelComps : List ModelComponent :=
  [⟨"a", true, rasterLayerWith epsg_4326 (some NO_DATA_VALUE)⟩,
   ⟨"b", true, rasterLayerWith epsg_4326 (some NO_DATA_VALUE)⟩]

/-- Three valid raster components whose band-0 no-data values are
-9999, -9999 and -1. -/
def ndExampleComps : List ModelComponent :=
  [⟨"p", true, rasterLayerWith epsg_4326 (some (-9999))⟩,
   ⟨"q", true, rasterLayerWith epsg_4326 (some (-9999))⟩,
   ⟨"r", true, rasterLayerWith epsg_4326 (some (-1))⟩]

/-- Three valid components with CRS EPSG:4326, EPSG:4326, EPSG:3857. -/
def crsMixedComps : List ModelComponent :=
  [⟨"a", true, rasterLayerWith epsg_4326 none⟩,
   ⟨"b", true, rasterLayerWith epsg_4326 none⟩,
   ⟨"c", true, rasterLayerWith epsg_3857 none⟩]

/-- Three valid components all with CRS EPSG:4326. -/
def crsSameComps : List ModelComponent :=
  [⟨"a", true, rasterLayerWith epsg_4326 none⟩,
   ⟨"b", true, rasterLayerWith epsg_4326 none⟩,
   ⟨"c", true, rasterLayerWith epsg_4326 none⟩]

/-- Two invalid components: every rule validator fails on them. -/
def invalidComps : List ModelComponent :=
  [⟨"x", false, vectorLayer⟩, ⟨"y", false, vectorLayer⟩]

/-! ### Claim C1: progress aggregation -/

/-- Reference progress after a trace: each completion event adds exactly
`100 / n`, and progress-changed events never touch it. -/
lemma processFeedbackEvents_ref (n : Nat) (events : List FeedbackEvent) :
    ∀ s : RunnerProgressState,
      (processFeedbackEvents n s events).rule_reference_progress
        = s.rule_reference_progress + 100 * (countCompleted events : ℚ) / n := by
  induction events with
  | nil => intro s; simp [processFeedbackEvents, countCompleted]
  | cons e rest ih =>
    intro s
    have hstep : processFeedbackEvents n s (e :: rest)
        = processFeedbackEvents n (applyFeedbackEvent n s e) rest := rfl
    rw [hstep, ih]
    cases e with
    | progressChanged p =>
      have href : (applyFeedbackEvent n s (FeedbackEvent.progressChanged p)).rule_reference_progress
          = s.rule_reference_progress := by
        simp only [applyFeedbackEvent, DataValidator_on_rule_progress_changed]
        split <;> rfl
      rw [href]
      simp [countCompleted, List.countP_cons]
    | completed =>
      have href : (applyFeedbackEvent n s FeedbackEvent.completed).rule_reference_progress
          = s.rule_reference_progress + 100 / n := rfl
      rw [href]
      have hcount : (countCompleted (FeedbackEvent.completed :: rest) : ℚ)
          = (countCompleted rest : ℚ) + 1 := by
        simp [countCompleted, List.countP_cons]
      rw [hcount]
      ring

/-- Claim C1: with `n > 0` registered rule validators, after the trace
`events` the accumulated share `_rule_reference_progress` equals exactly
`100 * k / n` where `k` is the number of rule-completion events — independent
of every reported progress value — and a rule progress report `p` arriving
next sets the overall progress to that accumulated share plus `p / n`. -/
theorem runner_progress_aggregation (n : Nat) (hn : 0 < n)
    (events : List FeedbackEvent) (p : ℚ) :
    (processFeedbackEvents n initialProgressState events).rule_reference_progress
        = 100 * (countCompleted events : ℚ) / n
    ∧ (processFeedbackEvents n initialProgressState
          (events ++ [FeedbackEvent.progressChanged p])).overall_progress
        = 100 * (countCompleted events : ℚ) / n + p / n := by
  have hn0 : n ≠ 0 := Nat.pos_iff_ne_zero.mp hn
  have href := processFeedbackEvents_ref n events initialProgressState
  have hinit : initialProgressState.rule_reference_progress = 0 := rfl
  rw [hinit, zero_add] at href
  refine ⟨href, ?_⟩
  have happ : processFeedbackEvents n initialProgressState
      (events ++ [FeedbackEvent.progressChanged p])
      = applyFeedbackEvent n (processFeedbackEvents n initialProgressState events)
          (FeedbackEvent.progressChanged p) := by
    simp [processFeedbackEvents, List.foldl_append]
  rw [happ]
  simp only [applyFeedbackEvent, DataValidator_on_rule_progress_changed, hn0,
    if_false]
  rw [href]

/-- Witness for C1 at `n = 2` with one completed rule and a next report of 30:
the accumulated share is `100 * 1 / 2` and the overall progress becomes
`100 * 1 / 2 + 30 / 2`. -/
theorem runner_progress_aggregation_witness :
    (processFeedbackEvents 2 initialProgressState
        [FeedbackEvent.completed]).rule_reference_progress
      = 100 * (countCompleted [FeedbackEvent.completed] : ℚ) / 2
    ∧ (processFeedbackEvents 2 initialProgressState
        ([FeedbackEvent.completed] ++ [FeedbackEvent.progressChanged 30])).overall_progress
      = 100 * (countCompleted [FeedbackEvent.completed] : ℚ) / 2 + 30 / 2 :=
  runner_progress_aggregation 2 (by norm_num) [FeedbackEvent.completed] 30

/-! ### Claim C2: RasterValidator pass/fail trigger -/

/-- Claim C2 evaluated at the failing input (a code bug): both components are
valid and backed by non-raster layers — so the failure set of the claim (and
of the method docstring) is `{a, b}` — and the loop even accumulates both
names; yet `_validate` only flips its status for invalid components, so the
validation passes with summary "All datasets are rasters" and an empty detail
row, discarding the accumulated names. -/
theorem raster_validator_nonraster_pass_bug :
    vectorComps.all (fun c => c.is_valid && decide (c.layer.kind ≠ LayerKind.raster)) = true
    ∧ (polledLoop rasterStep none vectorComps 0 (true, [])).1 = some (true, ["a", "b"])
    ∧ RasterValidator_validate raster_validation_config vectorComps none 0
        = (VOutcome.finishedRule true
            ⟨raster_validation_config, raster_validation_config.recommendation,
             rasters_pass_summary, []⟩, 2) :=
  ⟨rfl, rfl, rfl⟩

/-! ### Claim C5: cancellation before a rule's per-dataset loop -/

/-- Claim C5 evaluated at the failing input (a code bug): one registered rule
validator, two valid components, and the cancellation flag set at poll point 1
— after the runner's pre-rule `isCanceled` poll (point 0) but before the
rule's first per-dataset poll (point 1).  The rule's `validate` does return
False at its very first poll, before touching any dataset and without setting
a result; but `DataValidator._validate` never re-checks the flag after its
last rule, keeps its initial `status = True`, and `run` returns True with the
cancelled rule's result slot still `None`. -/
theorem cancellation_during_last_rule_returns_true :
    RasterValidator_validate raster_validation_config cancelComps (some 1) 1
        = (VOutcome.cancelled, 2)
    ∧ DataValidator_run [rasterRuleValidator raster_validation_config]
        (PyComponentsVal.listV cancelComps) (some 1)
        = Except.ok (true, [none]) :=
  ⟨rfl, rfl⟩

/-! ### Claim C10: NcsDataValidator without the ncs_pathways keyword -/

/-- Claim C10: constructing `NcsDataValidator` without the `ncs_pathways`
keyword binds `model_components` to the built-in `list` type object (not a
list value of any kind), and since three rule validators are registered,
`run()` reaches the component-count check `len(self.model_components) < 2`,
which raises `TypeError` (outside the `try` block) instead of returning
False. -/
theorem ncs_missing_kwarg_raises_type_error :
    NcsDataValidator_model_components none = PyComponentsVal.typeObj
    ∧ (NcsDataValidator_model_components none).isListVal = false
    ∧ (NcsDataValidator_rule_validators.length = 0) = False
    ∧ DataValidator_run NcsDataValidator_rule_validators
        (NcsDataValidator_model_components none) none
        = Except.error PyError.typeError :=
  ⟨rfl, rfl, by simp [NcsDataValidator_rule_validators], rfl⟩

/-! ### Claim C3: the no-data example {-9999, -9999, -1} -/

/-- Counterexample to claim C3 as stated: with the expected sentinel -9999 and
declared band no-data values -9999, -9999, -1 the validation does NOT fail —
the single deviating bucket stays at the `len > 1` failure threshold, so the
result passes with the pass summary and no detail rows at all. -/
theorem no_data_example_passes_counterexample :
    NoDataValueValidator_validate NO_DATA_VALUE no_data_validation_config
        ndExampleComps none 0
      = (VOutcome.finishedRule true
          ⟨no_data_validation_config, no_data_validation_config.recommendation,
           no_data_pass_summary_base ++ toString NO_DATA_VALUE, []⟩, 3) :=
  rfl

/-! ### Generic lemmas about the polled loops and the bucket dicts -/

/-- With no cancellation, a polled rule loop runs to completion and computes
the plain left fold of its per-dataset body, consuming one poll point per
dataset. -/
lemma polledLoop_none {σ : Type} (step : σ → ModelComponent → σ)
    (comps : List ModelComponent) : ∀ (poll : Nat) (s : σ),
    polledLoop step none comps poll s = (some (comps.foldl step s), poll + comps.length) := by
  induction comps with
  | nil => intro poll s; simp [polledLoop]
  | cons c rest ih =>
    intro poll s
    show polledLoop step none rest (poll + 1) (step s c) = _
    rw [ih]
    simp [List.foldl_cons]
    omega

/-- `dictAppend` never yields an empty dict. -/
lemma dictAppend_ne_nil {κ : Type} [DecidableEq κ] (d : List (κ × List String))
    (key : κ) (nm : String) : dictAppend d key nm ≠ [] := by
  unfold dictAppend
  split
  · rename_i h
    intro hmap
    rw [List.map_eq_nil_iff] at hmap
    subst hmap
    simp at h
  · simp

/-- Key membership after `dictAppend`: the appended key is present, every
other key is untouched. -/
lemma hasDictKey_dictAppend {κ : Type} [DecidableEq κ] (d : List (κ × List String))
    (key key2 : κ) (nm : String) :
    hasDictKey (dictAppend d key nm) key2 = (hasDictKey d key2 || decide (key = key2)) := by
  unfold dictAppend hasDictKey
  split
  · rename_i h
    rw [List.any_map]
    have hcong : ((fun kv2 : κ × List String => decide (kv2.1 = key2)) ∘
          (fun kv2 : κ × List String =>
            if kv2.1 = key then (kv2.1, kv2.2 ++ [nm]) else kv2))
          = (fun kv : κ × List String => decide (kv.1 = key2)) := by
      funext kv
      by_cases hk : kv.1 = key <;> simp [Function.comp, hk]
    rw [hcong]
    by_cases hkk : key = key2
    · subst hkk
      simp only [decide_True, Bool.or_true]
      exact h
    · simp [hkk]
  · rw [List.any_append]
    simp

/-- A dict with `key` absent filters to itself under `≠ key`. -/
lemma filter_ne_of_not_hasDictKey {κ : Type} [DecidableEq κ]
    (d : List (κ × List String)) (key : κ) (h : hasDictKey d key = false) :
    d.filter (fun kv => decide (kv.1 ≠ key)) = d := by
  rw [List.filter_eq_self]
  intro kv hkv
  unfold hasDictKey at h
  rw [List.any_eq_false] at h
  have := h kv hkv
  simpa using this

/-- If `l.all p` fails, some element witnesses `!p`. -/
lemma any_not_of_all_false {α : Type} (p : α → Bool) :
    ∀ l : List α, l.all p = false → l.any (fun x => !p x) = true := by
  intro l hl
  rw [List.any_eq_true]
  have hl2 : ¬(l.all p = true) := by simp [hl]
  rw [List.all_eq_true] at hl2
  push_neg at hl2
  obtain ⟨x, hx, hpx⟩ := hl2
  refine ⟨x, hx, ?_⟩
  cases hpb : p x
  · rfl
  · exact absurd hpb hpx

/-- If `l.all p` holds, no element witnesses `!p`. -/
lemma any_not_of_all_true {α : Type} (p : α → Bool) :
    ∀ l : List α, l.all p = true → l.any (fun x => !p x) = false := by
  intro l hl
  rw [List.any_eq_false]
  rw [List.all_eq_true] at hl
  intro x hx
  simp [hl x hx]

/-! ### Lemmas about the no-data per-dataset body -/

/-- The no-data buckets built over `comps` (the dict `no_data_definitions` at
the end of the loop, absent cancellation). -/
def noDataBuckets (expected : Int) (comps : List ModelComponent) :
    List (NdKey × List String) :=
  (comps.foldl (noDataStep expected) (true, [])).2

/-- How many buckets of the no-data dict are keyed by a literal no-data value
(rather than by the invalid-datasets marker). -/
def ndValueBucketCount (d : List (NdKey × List String)) : Nat :=
  (d.filter (fun kv => decide (kv.1 ≠ NdKey.invalid))).length

/-- A component the no-data loop skips because its band `BAND_NUMBER` declares
no no-data value (valid, raster-backed, nothing declared). -/
def noDataLacksDeclared (c : ModelComponent) : Bool :=
  c.is_valid && decide (c.layer.kind = LayerKind.raster)
    && !(c.layer.provider.sourceHasNoDataValue BAND_NUMBER)

/-- Two components the no-data loop cannot tell apart: same name, validity and
layer kind, and the same band-`BAND_NUMBER` no-data declaration (they may
differ in every other band and in their CRS). -/
def band0Agrees (c c2 : ModelComponent) : Prop :=
  c.name = c2.name ∧ c.is_valid = c2.is_valid ∧ c.layer.kind = c2.layer.kind
  ∧ c.layer.provider.sourceHasNoDataValue BAND_NUMBER
      = c2.layer.provider.sourceHasNoDataValue BAND_NUMBER
  ∧ c.layer.provider.sourceNoDataValue BAND_NUMBER
      = c2.layer.provider.sourceNoDataValue BAND_NUMBER

/-- One no-data step flips the status exactly on an invalid component. -/
lemma noDataStep_fst (e : Int) (sd : Bool × List (NdKey × List String))
    (c : ModelComponent) : (noDataStep e sd c).1 = (sd.1 && c.is_valid) := by
  unfold noDataStep
  cases hv : c.is_valid
  · simp [hv]
  · simp only [hv, Bool.true_eq_false, if_false, Bool.and_true]
    split
    · rfl
    · split
      · rfl
      · split
        · rfl
        · rfl

/-- One no-data step adds the invalid-datasets key exactly for an invalid
component. -/
lemma noDataStep_invalidKey (e : Int) (sd : Bool × List (NdKey × List String))
    (c : ModelComponent) :
    hasDictKey (noDataStep e sd c).2 NdKey.invalid
      = (hasDictKey sd.2 NdKey.invalid || !c.is_valid) := by
  unfold noDataStep
  cases hv : c.is_valid
  · simp [hv, hasDictKey_dictAppend]
  · simp only [hv, Bool.true_eq_false, if_false, Bool.not_true, Bool.or_false]
    split
    · rfl
    · split
      · rfl
      · split
        · simp [hasDictKey_dictAppend]
        · rfl

/-- Folded form of `noDataStep_fst`: the loop status is the initial status
conjoined with the validity of every component. -/
lemma noDataFold_fst (e : Int) (comps : List ModelComponent) :
    ∀ sd : Bool × List (NdKey × List String),
      (comps.foldl (noDataStep e) sd).1 = (sd.1 && comps.all (fun c => c.is_valid)) := by
  induction comps with
  | nil => intro sd; simp
  | cons c rest ih =>
    intro sd
    rw [List.foldl_cons, ih, List.all_cons, noDataStep_fst, Bool.and_assoc]

/-- Folded form of `noDataStep_invalidKey`: the invalid bucket exists exactly
when it already existed or some component is invalid. -/
lemma noDataFold_invalidKey (e : Int) (comps : List ModelComponent) :
    ∀ sd : Bool × List (NdKey × List String),
      hasDictKey (comps.foldl (noDataStep e) sd).2 NdKey.invalid
        = (hasDictKey sd.2 NdKey.invalid || comps.any (fun c => !c.is_valid)) := by
  induction comps with
  | nil => intro sd; simp
  | cons c rest ih =>
    intro sd
    rw [List.foldl_cons, ih, List.any_cons, noDataStep_invalidKey, Bool.or_assoc]

/-- A component whose band declares no no-data value leaves the loop state
untouched. -/
lemma noDataStep_skip (e : Int) (sd : Bool × List (NdKey × List String))
    (c : ModelComponent) (h : noDataLacksDeclared c = true) : noDataStep e sd c = sd := by
  unfold noDataLacksDeclared at h
  simp only [Bool.and_eq_true, decide_eq_true_eq, Bool.not_eq_true'] at h
  obtain ⟨⟨hv, hk⟩, hnd⟩ := h
  unfold noDataStep
  simp [hv, hk, hnd]

/-- Dropping the skipped components changes nothing about the fold. -/
lemma noDataFold_filter (e : Int) (comps : List ModelComponent) :
    ∀ sd : Bool × List (NdKey × List String),
      (comps.filter (fun c => !(noDataLacksDeclared c))).foldl (noDataStep e) sd
        = comps.foldl (noDataStep e) sd := by
  induction comps with
  | nil => intro sd; rfl
  | cons c rest ih =>
    intro sd
    cases hskip : noDataLacksDeclared c
    · rw [List.filter_cons_of_pos (by simp [hskip]), List.foldl_cons, List.foldl_cons, ih]
    · rw [List.filter_cons_of_neg (by simp [hskip]), List.foldl_cons,
        noDataStep_skip e sd c hskip, ih]

/-- A no-data step cannot tell band-0-agreeing components apart. -/
lemma noDataStep_band0 (e : Int) (sd : Bool × List (NdKey × List String))
    {c c2 : ModelComponent} (h : band0Agrees c c2) :
    noDataStep e sd c = noDataStep e sd c2 := by
  obtain ⟨h1, h2, h3, h4, h5⟩ := h
  unfold noDataStep
  rw [h1, h2, h3, h4, h5]

/-- Folded form of `noDataStep_band0`. -/
lemma noDataFold_band0 (e : Int) {comps comps2 : List ModelComponent}
    (h : List.Forall₂ band0Agrees comps comps2) :
    ∀ sd : Bool × List (NdKey × List String),
      comps.foldl (noDataStep e) sd = comps2.foldl (noDataStep e) sd := by
  induction h with
  | nil => intro sd; rfl
  | cons hrel _ ih =>
    intro sd
    rw [List.foldl_cons, List.foldl_cons, noDataStep_band0 e sd hrel, ih]

/-- `NoDataValueValidator._validate` with no cancellation, in closed form. -/
lemma noDataValidate_none (e : Int) (cfg : RuleConfiguration)
    (comps : List ModelComponent) (poll : Nat) :
    NoDataValueValidator_validate e cfg comps none poll
      = (let sd := comps.foldl (noDataStep e) (true, [])
         let status := if 1 < sd.2.length ∧ sd.1 = true then false else sd.1
         (VOutcome.finishedRule status
           ⟨cfg, cfg.recommendation,
            (if status = false then no_data_fail_summary_base ++ toString e
             else no_data_pass_summary_base ++ toString e),
            (if status = false then
               sd.2.map (fun kv => (ndKeyDisplay kv.1, String.intercalate comma_sep kv.2))
             else [])⟩,
          poll + comps.length)) := by
  unfold NoDataValueValidator_validate
  rw [polledLoop_none]

/-- The post-loop status of the no-data validator, characterised through the
final buckets: pass exactly when there is no invalid bucket and at most one
value bucket. -/
lemma noDataFinal_iff (e : Int) (comps : List ModelComponent) :
    ((if 1 < (noDataBuckets e comps).length
          ∧ (comps.foldl (noDataStep e) (true, [])).1 = true
       then false else (comps.foldl (noDataStep e) (true, [])).1) = true)
    ↔ (hasDictKey (noDataBuckets e comps) NdKey.invalid = false
       ∧ ndValueBucketCount (noDataBuckets e comps) ≤ 1) := by
  have hfst : (comps.foldl (noDataStep e) (true, [])).1
      = comps.all (fun c => c.is_valid) := by
    rw [noDataFold_fst]; simp
  have hkey : hasDictKey (noDataBuckets e comps) NdKey.invalid
      = comps.any (fun c => !c.is_valid) := by
    unfold noDataBuckets
    rw [noDataFold_invalidKey]
    simp [hasDictKey]
  cases hall : comps.all (fun c => c.is_valid)
  · have hkey2 : hasDictKey (noDataBuckets e comps) NdKey.invalid = true := by
      rw [hkey]; exact any_not_of_all_false _ comps hall
    rw [hfst, hall, hkey2]
    simp
  · have hkey2 : hasDictKey (noDataBuckets e comps) NdKey.invalid = false := by
      rw [hkey]; exact any_not_of_all_true _ comps hall
    have hcount : ndValueBucketCount (noDataBuckets e comps)
        = (noDataBuckets e comps).length := by
      unfold ndValueBucketCount
      rw [filter_ne_of_not_hasDictKey _ _ hkey2]
    rw [hfst, hall, hkey2, hcount]
    by_cases hlen : 1 < (noDataBuckets e comps).length
    · rw [if_pos ⟨hlen, rfl⟩]
      constructor
      · intro h; exact Bool.noConfusion h
      · rintro ⟨_, h2⟩; exact absurd h2 (by omega)
    · rw [if_neg (fun h => hlen h.1)]
      constructor
      · intro _; exact ⟨rfl, by omega⟩
      · intro _; rfl

/-- Claim C7: (1) absent cancellation, the no-data validation passes exactly
when the final dict holds no invalid-datasets bucket and at most one distinct
no-data-value bucket; (2) components whose band `BAND_NUMBER` declares no
no-data value contribute nothing at all — filtering them out of the input
leaves the whole outcome unchanged; (3) only band `BAND_NUMBER = 0` of
raster-kind components is inspected: inputs that agree on name, validity,
layer kind and the band-0 no-data declaration yield identical outcomes. -/
theorem no_data_validator_semantics :
    (∀ (expected : Int) (cfg : RuleConfiguration) (comps : List ModelComponent)
        (st : Bool) (r : RuleResult) (p : Nat),
      NoDataValueValidator_validate expected cfg comps none 0
          = (VOutcome.finishedRule st r, p) →
      (st = true ↔ (hasDictKey (noDataBuckets expected comps) NdKey.invalid = false
                    ∧ ndValueBucketCount (noDataBuckets expected comps) ≤ 1)))
    ∧ (∀ (expected : Int) (cfg : RuleConfiguration) (comps : List ModelComponent)
        (poll : Nat),
      (NoDataValueValidator_validate expected cfg
          (comps.filter (fun c => !(noDataLacksDeclared c))) none poll).1
        = (NoDataValueValidator_validate expected cfg comps none poll).1)
    ∧ (∀ (expected : Int) (cfg : RuleConfiguration)
        (comps comps2 : List ModelComponent) (poll : Nat),
      List.Forall₂ band0Agrees comps comps2 →
      NoDataValueValidator_validate expected cfg comps none poll
        = NoDataValueValidator_validate expected cfg comps2 none poll) := by
  refine ⟨?_, ?_, ?_⟩
  · intro expected cfg comps st r p h
    rw [noDataValidate_none] at h
    simp only [Prod.mk.injEq, VOutcome.finishedRule.injEq] at h
    obtain ⟨⟨hst, _⟩, _⟩ := h
    rw [← hst]
    exact noDataFinal_iff expected comps
  · intro expected cfg comps poll
    rw [noDataValidate_none, noDataValidate_none]
    simp only [noDataFold_filter]
  · intro expected cfg comps comps2 poll h
    rw [noDataValidate_none, noDataValidate_none]
    rw [noDataFold_band0 expected h, h.length_eq]

/-- Witness for C7 at the (-9999, -9999, -1) example: the validation finishes with
status true, and indeed its bucket dict has no invalid bucket and exactly one
value bucket. -/
theorem no_data_validator_semantics_witness :
    true = true ↔ (hasDictKey (noDataBuckets NO_DATA_VALUE ndExampleComps) NdKey.invalid = false
                   ∧ ndValueBucketCount (noDataBuckets NO_DATA_VALUE ndExampleComps) ≤ 1) :=
  no_data_validator_semantics.1 NO_DATA_VALUE no_data_validation_config ndExampleComps
    true
    ⟨no_data_validation_config, no_data_validation_config.recommendation,
     no_data_pass_summary_base ++ toString NO_DATA_VALUE, []⟩
    3 rfl

/-- Claim C3, amended: with expected sentinel -9999 and declared no-data
values {-9999, -9999, -1}, the single deviating bucket — keyed by the value -1
and holding exactly the odd component — stays below the two-bucket failure
threshold, so the result passes with no detail rows; and for every input set,
components whose band lacks a declared no-data value contribute nothing to the
outcome (they can never appear in any bucket). -/
theorem no_data_example_amended :
    (noDataBuckets NO_DATA_VALUE ndExampleComps = [(NdKey.val (-1), ["r"])])
    ∧ NoDataValueValidator_validate NO_DATA_VALUE no_data_validation_config
        ndExampleComps none 0
      = (VOutcome.finishedRule true
          ⟨no_data_validation_config, no_data_validation_config.recommendation,
           no_data_pass_summary_base ++ toString NO_DATA_VALUE, []⟩, 3)
    ∧ (∀ (expected : Int) (cfg : RuleConfiguration) (comps : List ModelComponent)
        (poll : Nat),
      (NoDataValueValidator_validate expected cfg
          (comps.filter (fun c => !(noDataLacksDeclared c))) none poll).1
        = (NoDataValueValidator_validate expected cfg comps none poll).1) := by
  refine ⟨rfl, rfl, ?_⟩
  intro expected cfg comps poll
  rw [noDataValidate_none, noDataValidate_none]
  simp only [noDataFold_filter]

/-! ### Lemmas about the CRS per-dataset body -/

/-- A component the CRS loop buckets under an authid: valid, with a defined
CRS ("no invalid or undefined entries" in the claim's words). -/
def crsCompOk (c : ModelComponent) : Bool := c.is_valid && c.layer.crs.isSome

/-- The CRS buckets built over `comps` (the dict `crs_definitions` at the end
of the loop, absent cancellation). -/
def crsBuckets (comps : List ModelComponent) : List (String × List String) :=
  (comps.foldl crsStep (true, [])).2

/-- The CRS validator status after the post-loop `len > 1` adjustment. -/
def crsStatusAfter (comps : List ModelComponent) : Bool :=
  if 1 < (crsBuckets comps).length ∧ (comps.foldl crsStep (true, [])).1 = true
  then false else (comps.foldl crsStep (true, [])).1

/-- The CRS validator summary, absent cancellation. -/
def crsSummary (comps : List ModelComponent) : String :=
  if crsStatusAfter comps = false then crs_fail_summary
  else crs_pass_summary_base ++ ((crsBuckets comps).map Prod.fst).headD empty_key

/-- The CRS validator detail rows, absent cancellation. -/
def crsDetails (comps : List ModelComponent) : List (String × String) :=
  if crsStatusAfter comps = false then
    (crsBuckets comps).map (fun kv => (kv.1, String.intercalate comma_sep kv.2))
  else []

/-- One CRS step keeps the status high exactly on a valid component with a
defined CRS. -/
lemma crsStep_fst (sd : Bool × List (String × List String)) (c : ModelComponent) :
    (crsStep sd c).1 = (sd.1 && crsCompOk c) := by
  unfold crsStep crsCompOk
  cases hv : c.is_valid
  · simp [hv]
  · simp only [hv, Bool.true_eq_false, if_false, Bool.true_and]
    cases hcrs : c.layer.crs <;> simp [hcrs]

/-- Every CRS step appends into the dict, so the dict is never empty after a
step. -/
lemma crsStep_snd_ne_nil (sd : Bool × List (String × List String))
    (c : ModelComponent) : (crsStep sd c).2 ≠ [] := by
  unfold crsStep
  split
  · exact dictAppend_ne_nil _ _ _
  · split <;> exact dictAppend_ne_nil _ _ _

/-- Folded form of `crsStep_fst`. -/
lemma crsFold_fst (comps : List ModelComponent) :
    ∀ sd : Bool × List (String × List String),
      (comps.foldl crsStep sd).1 = (sd.1 && comps.all crsCompOk) := by
  induction comps with
  | nil => intro sd; simp
  | cons c rest ih =>
    intro sd
    rw [List.foldl_cons, ih, List.all_cons, crsStep_fst, Bool.and_assoc]

/-- The dict stays non-empty through the fold. -/
lemma crsFold_snd_ne_nil_of_ne_nil (comps : List ModelComponent) :
    ∀ sd : Bool × List (String × List String), sd.2 ≠ [] →
      (comps.foldl crsStep sd).2 ≠ [] := by
  induction comps with
  | nil => intro sd h; exact h
  | cons c rest ih =>
    intro sd _
    rw [List.foldl_cons]
    exact ih _ (crsStep_snd_ne_nil sd c)

/-- Over a non-empty input, the CRS dict ends non-empty. -/
lemma crsBuckets_ne_nil (comps : List ModelComponent) (h : comps ≠ []) :
    crsBuckets comps ≠ [] := by
  unfold crsBuckets
  cases comps with
  | nil => exact absurd rfl h
  | cons c rest =>
    rw [List.foldl_cons]
    exact crsFold_snd_ne_nil_of_ne_nil rest _ (crsStep_snd_ne_nil _ c)

/-- Appending under the only key of a singleton dict. -/
lemma dictAppend_singleton_same (cid nm : String) (ns : List String) :
    dictAppend [(cid, ns)] cid nm = [(cid, ns ++ [nm])] := by
  simp [dictAppend]

/-- Folding components that all carry the one CRS `cid` over a singleton dict
keyed `cid` appends exactly their names, keeping the status high. -/
lemma crsFold_const (cid : String) : ∀ (comps : List ModelComponent) (ns : List String),
    comps.all (fun c => c.is_valid && decide (c.layer.crs = some cid)) = true →
    comps.foldl crsStep (true, [(cid, ns)])
      = (true, [(cid, ns ++ comps.map (fun c => c.name))]) := by
  intro comps
  induction comps with
  | nil => intro ns _; simp
  | cons c rest ih =>
    intro ns hall
    rw [List.all_cons, Bool.and_eq_true] at hall
    obtain ⟨hc, hrest⟩ := hall
    rw [Bool.and_eq_true, decide_eq_true_eq] at hc
    obtain ⟨hv, hcrs⟩ := hc
    have hstep : crsStep (true, [(cid, ns)]) c = (true, [(cid, ns ++ [c.name])]) := by
      unfold crsStep
      rw [hv, hcrs]
      simp [dictAppend_singleton_same]
    rw [List.foldl_cons, hstep, ih _ hrest]
    simp

/-- Folding a non-empty all-same-CRS input from the empty dict yields the one
bucket with every name in input order. -/
lemma crsFold_const_nil (cid : String) (comps : List ModelComponent) (hne : comps ≠ [])
    (hall : comps.all (fun c => c.is_valid && decide (c.layer.crs = some cid)) = true) :
    comps.foldl crsStep (true, []) = (true, [(cid, comps.map (fun c => c.name))]) := by
  cases comps with
  | nil => exact absurd rfl hne
  | cons c rest =>
    rw [List.all_cons, Bool.and_eq_true] at hall
    obtain ⟨hc, hrest⟩ := hall
    rw [Bool.and_eq_true, decide_eq_true_eq] at hc
    obtain ⟨hv, hcrs⟩ := hc
    have hstep : crsStep (true, []) c = (true, [(cid, [c.name])]) := by
      unfold crsStep
      rw [hv, hcrs]
      simp [dictAppend]
    rw [List.foldl_cons, hstep, crsFold_const cid rest [c.name] hrest]
    simp

/-- `CrsValidator._validate` with no cancellation, in closed form. -/
lemma crsValidate_none (cfg : RuleConfiguration) (comps : List ModelComponent)
    (poll : Nat) :
    CrsValidator_validate cfg comps none poll
      = (VOutcome.finishedRule (crsStatusAfter comps)
          ⟨cfg, cfg.recommendation, crsSummary comps, crsDetails comps⟩,
         poll + comps.length) := by
  unfold CrsValidator_validate
  rw [polledLoop_none]
  rfl

/-- Claim C8: (1) absent cancellation, for a non-empty input the CRS
validation passes exactly when every component is valid with a defined CRS and
all of them land in exactly one CRS bucket; (2) on the mixed input
(EPSG:4326, EPSG:4326, EPSG:3857) it fails with exactly two buckets of sizes 2
and 1, rendered in input order; (3) for any non-empty input sharing one CRS it
passes with the summary naming that CRS identifier. -/
theorem crs_validator_semantics :
    (∀ (cfg : RuleConfiguration) (comps : List ModelComponent)
        (st : Bool) (r : RuleResult) (p : Nat),
      1 ≤ comps.length →
      CrsValidator_validate cfg comps none 0 = (VOutcome.finishedRule st r, p) →
      (st = true ↔ (comps.all crsCompOk = true ∧ (crsBuckets comps).length = 1)))
    ∧ (CrsValidator_validate crs_validation_config crsMixedComps none 0
        = (VOutcome.finishedRule false
            ⟨crs_validation_config, crs_validation_config.recommendation,
             crs_fail_summary, [(epsg_4326, "a, b"), (epsg_3857, "c")]⟩, 3)
       ∧ (crsBuckets crsMixedComps).map (fun kv => kv.2.length) = [2, 1])
    ∧ (∀ (cfg : RuleConfiguration) (cid : String) (comps : List ModelComponent),
      comps ≠ [] →
      comps.all (fun c => c.is_valid && decide (c.layer.crs = some cid)) = true →
      ∃ p, CrsValidator_validate cfg comps none 0
        = (VOutcome.finishedRule true
            ⟨cfg, cfg.recommendation, crs_pass_summary_base ++ cid, []⟩, p)) := by
  refine ⟨?_, ⟨rfl, rfl⟩, ?_⟩
  · intro cfg comps st r p hlen h
    rw [crsValidate_none] at h
    simp only [Prod.mk.injEq, VOutcome.finishedRule.injEq] at h
    obtain ⟨⟨hst, _⟩, _⟩ := h
    rw [← hst]
    unfold crsStatusAfter
    have hfst : (comps.foldl crsStep (true, [])).1 = comps.all crsCompOk := by
      rw [crsFold_fst]; simp
    have hne : crsBuckets comps ≠ [] := by
      refine crsBuckets_ne_nil comps ?_
      intro hc
      rw [hc] at hlen
      simp at hlen
    have hpos : 1 ≤ (crsBuckets comps).length := by
      cases hb : crsBuckets comps with
      | nil => exact absurd hb hne
      | cons a l => simp
    cases hall : comps.all crsCompOk
    · rw [hfst, hall]
      rw [if_neg (by rintro ⟨_, hcontra⟩; exact Bool.noConfusion hcontra)]
      constructor
      · intro hcontra; exact Bool.noConfusion hcontra
      · rintro ⟨hcontra, _⟩; exact Bool.noConfusion hcontra
    · rw [hfst, hall]
      by_cases hl1 : 1 < (crsBuckets comps).length
      · rw [if_pos ⟨hl1, rfl⟩]
        constructor
        · intro hcontra; exact Bool.noConfusion hcontra
        · rintro ⟨_, hlen1⟩; exact absurd hlen1 (by omega)
      · rw [if_neg (fun hcontra => hl1 hcontra.1)]
        constructor
        · intro _; exact ⟨rfl, by omega⟩
        · intro _; rfl
  · intro cfg cid comps hne hall
    refine ⟨0 + comps.length, ?_⟩
    rw [crsValidate_none]
    have hfold := crsFold_const_nil cid comps hne hall
    have hbuck : crsBuckets comps = [(cid, comps.map (fun c => c.name))] := by
      unfold crsBuckets; rw [hfold]
    have hstatus : crsStatusAfter comps = true := by
      unfold crsStatusAfter
      rw [hbuck, hfold]
      simp
    have hsummary : crsSummary comps = crs_pass_summary_base ++ cid := by
      unfold crsSummary
      rw [hstatus, hbuck]
      simp
    have hdetails : crsDetails comps = [] := by
      unfold crsDetails
      rw [hstatus]
      simp
    rw [hstatus, hsummary, hdetails]

/-- Witness for C8 at three components all carrying EPSG:4326: the same-CRS
branch of the claim applied at a concrete input. -/
theorem crs_validator_semantics_witness :
    ∃ p, CrsValidator_validate crs_validation_config crsSameComps none 0
      = (VOutcome.finishedRule true
          ⟨crs_validation_config, crs_validation_config.recommendation,
           crs_pass_summary_base ++ epsg_4326, []⟩, p) :=
  crs_validator_semantics.2.2 crs_validation_config epsg_4326 crsSameComps
    (by decide) (by decide)

/-! ### Lemmas about the runner -/

/-- Inverting `consResult` on a non-raised outcome. -/
lemma consResult_ok_inv (r : Option RuleResult) (o : RunnerOutcome) (st : Bool)
    (rs : List (Option RuleResult)) (p : Nat)
    (h : consResult r o = RunnerOutcome.ok st rs p) :
    ∃ rs2, o = RunnerOutcome.ok st rs2 p ∧ rs = r :: rs2 := by
  cases o with
  | ok st2 rs2 p2 =>
    simp only [consResult, RunnerOutcome.ok.injEq] at h
    obtain ⟨h1, h2, h3⟩ := h
    exact ⟨rs2, by rw [h1, h3], h2.symm⟩
  | raised rs2 p2 => exact RunnerOutcome.noConfusion h

/-- With no cancellation, `DataValidator._validate` can only end with status
True: the status is initialised True, the cancel branch is the only write, and
the per-rule boolean returns are discarded. -/
lemma runnerValidate_none_status (comps : List ModelComponent) :
    ∀ (vs : List RuleValidatorM) (poll : Nat) (st : Bool)
      (rs : List (Option RuleResult)) (p : Nat),
      DataValidator_validate comps none vs poll = RunnerOutcome.ok st rs p →
      st = true := by
  intro vs
  induction vs with
  | nil =>
    intro poll st rs p h
    simp only [DataValidator_validate, RunnerOutcome.ok.injEq] at h
    exact h.1.symm
  | cons v rest ih =>
    intro poll st rs p h
    rw [DataValidator_validate] at h
    split at h
    · rename_i hcanc
      exact absurd hcanc (by simp [isCanceled])
    · split at h
      · exact RunnerOutcome.noConfusion h
      · obtain ⟨rs2, hrec, _⟩ := consResult_ok_inv _ _ _ _ _ h
        exact ih _ _ _ _ hrec
      · obtain ⟨rs2, hrec, _⟩ := consResult_ok_inv _ _ _ _ _ h
        exact ih _ _ _ _ hrec
      · obtain ⟨rs2, hrec, _⟩ := consResult_ok_inv _ _ _ _ _ h
        exact ih _ _ _ _ hrec

/-- `DataValidator.run` with no registered rule validators. -/
lemma run_no_validators (vs : List RuleValidatorM) (mcs : PyComponentsVal)
    (cf : Option Nat) (h0 : vs.length = 0) :
    DataValidator_run vs mcs cf = Except.ok (false, vs.map (fun _ => none)) := by
  unfold DataValidator_run
  rw [if_pos h0]

/-- `DataValidator.run` with fewer than two components. -/
lemma run_few_components (vs : List RuleValidatorM) (comps : List ModelComponent)
    (cf : Option Nat) (h0 : ¬vs.length = 0) (h2 : comps.length < 2) :
    DataValidator_run vs (PyComponentsVal.listV comps) cf
      = Except.ok (false, vs.map (fun _ => none)) := by
  unfold DataValidator_run
  rw [if_neg h0]
  dsimp only
  rw [if_pos h2]

/-- `DataValidator.run` past both precondition checks: the `try` block runs
`_validate` and converts a raised exception into a False return. -/
lemma run_main (vs : List RuleValidatorM) (comps : List ModelComponent)
    (cf : Option Nat) (h0 : ¬vs.length = 0) (h2 : ¬comps.length < 2) :
    DataValidator_run vs (PyComponentsVal.listV comps) cf
      = (match DataValidator_validate comps cf vs 0 with
         | RunnerOutcome.ok st rs _ => Except.ok (st, rs)
         | RunnerOutcome.raised rs _ => Except.ok (false, rs)) := by
  unfold DataValidator_run
  rw [if_neg h0]
  dsimp only
  rw [if_neg h2]

/-- Claim C4: after `finished(result)`, the stored `ValidationResult` is set —
as the ordered per-validator results plus the runner's component-type tag —
and `validation_completed` emitted exactly when `result` is True; and every
failure path of `run` (no validators, too few components, an observed
cancellation, a raised exception) hands `finished` a False, leaving the result
unset and the event unemitted. -/
theorem runner_finished_result_lifecycle :
    ∀ (vs : List RuleValidatorM) (comps : List ModelComponent) (cf : Option Nat)
      (tag : ModelComponentType) (st : Bool) (rs : List (Option RuleResult)),
      DataValidator_run vs (PyComponentsVal.listV comps) cf = Except.ok (st, rs) →
      ((st = true →
          DataValidator_finished st rs tag = ⟨some ⟨rs, tag⟩, true⟩)
       ∧ (st = false →
          DataValidator_finished st rs tag = ⟨none, false⟩)
       ∧ (vs.length = 0 → st = false)
       ∧ (comps.length < 2 → st = false)
       ∧ ((DataValidator_validate comps cf vs 0).isRaised = true → st = false)) := by
  intro vs comps cf tag st rs h
  refine ⟨?_, ?_, ?_, ?_, ?_⟩
  · intro hst; subst hst; rfl
  · intro hst; subst hst; rfl
  · intro h0
    rw [run_no_validators vs _ cf h0] at h
    simp only [Except.ok.injEq, Prod.mk.injEq] at h
    exact h.1.symm
  · intro h2
    by_cases h0 : vs.length = 0
    · rw [run_no_validators vs _ cf h0] at h
      simp only [Except.ok.injEq, Prod.mk.injEq] at h
      exact h.1.symm
    · rw [run_few_components vs comps cf h0 h2] at h
      simp only [Except.ok.injEq, Prod.mk.injEq] at h
      exact h.1.symm
  · intro hraise
    by_cases h0 : vs.length = 0
    · rw [run_no_validators vs _ cf h0] at h
      simp only [Except.ok.injEq, Prod.mk.injEq] at h
      exact h.1.symm
    · by_cases h2 : comps.length < 2
      · rw [run_few_components vs comps cf h0 h2] at h
        simp only [Except.ok.injEq, Prod.mk.injEq] at h
        exact h.1.symm
      · rw [run_main vs comps cf h0 h2] at h
        cases hV : DataValidator_validate comps cf vs 0 with
        | ok st2 rs2 p2 =>
          rw [hV] at hraise
          exact absurd hraise (by simp [RunnerOutcome.isRaised])
        | raised rs2 p2 =>
          rw [hV] at h
          simp only [Except.ok.injEq, Prod.mk.injEq] at h
          exact h.1.symm

/-- Witness for C4: a one-validator run over two valid raster components
returns True, and `finished(True)` stores the assembled `ValidationResult` and
emits the completion event. -/
theorem runner_finished_result_lifecycle_witness :
    DataValidator_finished true
        [some ⟨raster_validation_config, raster_validation_config.recommendation,
               rasters_pass_summary, []⟩]
        ModelComponentType.NCS_PATHWAY
      = ⟨some ⟨[some ⟨raster_validation_config, raster_validation_config.recommendation,
                      rasters_pass_summary, []⟩],
               ModelComponentType.NCS_PATHWAY⟩, true⟩ :=
  (runner_finished_result_lifecycle [rasterRuleValidator raster_validation_config]
      cancelComps none ModelComponentType.NCS_PATHWAY true
      [some ⟨raster_validation_config, raster_validation_config.recommendation,
             rasters_pass_summary, []⟩] rfl).1 rfl

/-- Claim C6: over an actual component list, `DataValidator.run` always
returns a value (never propagates an exception), and whenever `_validate`
ends with a propagating rule exception, `run` catches it and returns False. -/
theorem runner_contains_rule_exceptions :
    ∀ (vs : List RuleValidatorM) (comps : List ModelComponent) (cf : Option Nat),
      (∃ out, DataValidator_run vs (PyComponentsVal.listV comps) cf = Except.ok out)
      ∧ ((DataValidator_validate comps cf vs 0).isRaised = true →
          ∃ rs, DataValidator_run vs (PyComponentsVal.listV comps) cf
            = Except.ok (false, rs)) := by
  intro vs comps cf
  by_cases h0 : vs.length = 0
  · exact ⟨⟨(false, vs.map (fun _ => none)), run_no_validators vs _ cf h0⟩,
      fun _ => ⟨vs.map (fun _ => none), run_no_validators vs _ cf h0⟩⟩
  · by_cases h2 : comps.length < 2
    · exact ⟨⟨(false, vs.map (fun _ => none)), run_few_components vs comps cf h0 h2⟩,
        fun _ => ⟨vs.map (fun _ => none), run_few_components vs comps cf h0 h2⟩⟩
    · constructor
      · cases hV : DataValidator_validate comps cf vs 0 with
        | ok st rs p => exact ⟨(st, rs), by rw [run_main vs comps cf h0 h2, hV]⟩
        | raised rs p => exact ⟨(false, rs), by rw [run_main vs comps cf h0 h2, hV]⟩
      · intro hraise
        cases hV : DataValidator_validate comps cf vs 0 with
        | ok st rs p =>
          rw [hV] at hraise
          exact absurd hraise (by simp [RunnerOutcome.isRaised])
        | raised rs p => exact ⟨rs, by rw [run_main vs comps cf h0 h2, hV]⟩

/-- Witness for C6: a validator that raises at once, over two components —
`_validate` ends raised and `run` returns False without propagating. -/
theorem runner_contains_rule_exceptions_witness :
    (DataValidator_validate cancelComps none [raisingRuleValidator] 0).isRaised = true
    ∧ ∃ rs, DataValidator_run [raisingRuleValidator]
        (PyComponentsVal.listV cancelComps) none = Except.ok (false, rs) :=
  ⟨rfl, (runner_contains_rule_exceptions [raisingRuleValidator] cancelComps none).2 rfl⟩

/-- Claim C9: whenever the preconditions hold, no cancellation is requested
and no rule validator raises, `run` returns True — independently of every rule
validator's own pass/fail outcome — and `finished(True)` stores the
`ValidationResult` holding exactly the collected rule results. -/
theorem runner_success_independent_of_rule_outcomes :
    ∀ (vs : List RuleValidatorM) (comps : List ModelComponent),
      vs.length ≠ 0 → 2 ≤ comps.length →
      (DataValidator_validate comps none vs 0).isRaised = false →
      ∃ rs, DataValidator_run vs (PyComponentsVal.listV comps) none
          = Except.ok (true, rs)
        ∧ ∀ tag : ModelComponentType,
            (DataValidator_finished true rs tag).result = some ⟨rs, tag⟩ := by
  intro vs comps hvs hcomps hraise
  cases hV : DataValidator_validate comps none vs 0 with
  | ok st rs p =>
    have hst := runnerValidate_none_status comps vs 0 st rs p hV
    subst hst
    exact ⟨rs, by rw [run_main vs comps none hvs (by omega), hV], fun tag => rfl⟩
  | raised rs p =>
    rw [hV] at hraise
    exact absurd hraise (by simp [RunnerOutcome.isRaised])

/-- Witness for C9: the three NCS rule validators over two invalid components
— every rule validator fails, yet `run` returns True and `finished(True)`
stores a `ValidationResult` carrying all three failing rule results. -/
theorem runner_success_independent_witness :
    ∃ rs, DataValidator_run NcsDataValidator_rule_validators
        (PyComponentsVal.listV invalidComps) none = Except.ok (true, rs)
      ∧ ∀ tag : ModelComponentType,
          (DataValidator_finished true rs tag).result = some ⟨rs, tag⟩ :=
  runner_success_independent_of_rule_outcomes NcsDataValidator_rule_validators
    invalidComps (by decide) (by decide) rfl

/-- Claim C4 evaluated at the failing input (a code bug, the same missing
re-poll as the last-rule cancellation escape): the three NCS rule validators
over two valid raster components, with the cancellation flag set at poll
point 7 — after the runner's last pre-rule poll (point 6) but before the
no-data rule's first per-dataset poll.  The cancelled rule returns False with
no result, yet `run` returns True, so `finished(True)` stores a
`ValidationResult` (with `None` for the never-completed rule) and emits
`validation_completed` despite the cancellation.  By contrast, a cancellation
the runner does observe at a pre-rule poll (flag set from poll point 0) makes
`run` return False and `finished(False)` leaves the result unset with no
event, as the claim demands. -/
theorem cancelled_run_sets_result_and_emits :
    NoDataValueValidator_validate NO_DATA_VALUE no_data_validation_config
        cancelComps (some 7) 7 = (VOutcome.cancelled, 8)
    ∧ DataValidator_run NcsDataValidator_rule_validators
        (PyComponentsVal.listV cancelComps) (some 7)
        = Except.ok (true,
            [some ⟨raster_validation_config, raster_validation_config.recommendation,
                   rasters_pass_summary, []⟩,
             some ⟨crs_validation_config, crs_validation_config.recommendation,
                   crs_pass_summary_base ++ epsg_4326, []⟩,
             none])
    ∧ DataValidator_finished true
        [some ⟨raster_validation_config, raster_validation_config.recommendation,
               rasters_pass_summary, []⟩,
         some ⟨crs_validation_config, crs_validation_config.recommendation,
               crs_pass_summary_base ++ epsg_4326, []⟩,
         none] ModelComponentType.NCS_PATHWAY
        = ⟨some ⟨[some ⟨raster_validation_config, raster_validation_config.recommendation,
                        rasters_pass_summary, []⟩,
                  some ⟨crs_validation_config, crs_validation_config.recommendation,
                        crs_pass_summary_base ++ epsg_4326, []⟩,
                  none], ModelComponentType.NCS_PATHWAY⟩, true⟩
    ∧ DataValidator_run NcsDataValidator_rule_validators
        (PyComponentsVal.listV cancelComps) (some 0)
        = Except.ok (false, [none, none, none])
    ∧ DataValidator_finished false [none, none, none] ModelComponentType.NCS_PATHWAY
        = ⟨none, false⟩ :=
  ⟨rfl, rfl, rfl, rfl, rfl⟩
